import Mathlib

/-!
Verification of the GoLuTube video storage subsystem (src/lutube.go).

The Go program keeps all state on the filesystem under the directory
"videos/": each video id is a subdirectory holding "videodata.txt"
(the title, verbatim) and "video.mp4" (the payload bytes).  We embed
that state shallowly:

* `FS` is the relevant filesystem state: the list of slot directories
  under "videos/" (`dirs`, in listing order) together with association
  lists giving the content of each slot's metadata file and payload
  file.  An id has a metadata file exactly when it has an entry in
  `meta` (and likewise for `payload`); updates shadow earlier entries.
* `Env` is the fault environment for one `saveVideo` call: which of the
  underlying storage operations (`os.Create` of the payload file,
  `io.Copy`, `os.Create` of the metadata file, `WriteString`) fails,
  and how many bytes/characters a failed transfer managed to move.
* Go's `error` results are `Option StoreErr` (`none` = nil = success);
  functions that return a value or an error return `Except`.
* `saveVideo` additionally returns the list of storage-write events it
  performed, in order, so that write ordering is provable.

The embedding follows the Go source line by line, including its quirks:
`saveVideo` returns the shadowed nil `err` (not `err1`/`err2`) when
`io.Copy` or the second `os.Create` fails, and `getAvailableVideos`
appends the nil `*Video` produced by a failed `loadVideo` instead of
skipping the slot.
-/

/-- Payload bytes (`video.mp4` content). -/
abbrev Bytes := List Nat

/-- The `Video` struct of lutube.go: id and title. -/
structure Video where
  Id : String
  Title : String
deriving Repr, DecidableEq

/-- Kinds of storage-layer failure surfaced as Go errors. -/
inductive StoreErr where
  /-- the file or directory does not exist (`os.IsNotExist`) -/
  | notFound
  /-- `os.Create` of the payload file failed for an environmental reason -/
  | createFailed
  /-- `io.Copy` of the payload stream failed -/
  | copyFailed
  /-- `os.Create` of the metadata file failed for an environmental reason -/
  | createMetaFailed
  /-- `WriteString` of the title failed -/
  | putTitleFailed
  /-- `ioutil.ReadDir` on the store root failed -/
  | listFailed
deriving Repr, DecidableEq

/-- Filesystem state of the store: the slot directories under "videos/"
    (in the order `ReadDir` lists them) and the contents of each slot's
    metadata file ("videodata.txt") and payload file ("video.mp4").
    An id's file exists exactly when the id has an entry in the
    corresponding association list. -/
structure FS where
  dirs : List String
  meta : List (String × String)
  payload : List (String × Bytes)
deriving Repr, DecidableEq

/-- First-match lookup in an association list (the content of a slot's
    file, `none` when the file does not exist). -/
def getEntry {α : Type} (k : String) : List (String × α) → Option α
  | [] => none
  | (k', v) :: rest => if k' = k then some v else getEntry k rest

/-- Overwrite (or create) the file of slot `k`; earlier entries are
    shadowed. -/
def setEntry {α : Type} (k : String) (v : α) (l : List (String × α)) :
    List (String × α) :=
  (k, v) :: l

/-- Well-formedness of a filesystem state: files live inside slot
    directories, so every id with a metadata or payload entry is a
    listed directory. -/
def FS.wf (fs : FS) : Prop :=
  (∀ p ∈ fs.meta, p.1 ∈ fs.dirs) ∧ (∀ p ∈ fs.payload, p.1 ∈ fs.dirs)

/-- Fault environment for one `saveVideo` call: which underlying storage
    operation fails, and how much data a failed transfer moved before
    failing. -/
structure Env where
  createPayloadFails : Bool
  copyFails : Bool
  copyPartLen : Nat
  createMetaFails : Bool
  putTitleFails : Bool
  putTitlePartLen : Nat
deriving Repr, DecidableEq

/-- A fault-free environment: every underlying write operation of the
    `saveVideo` call succeeds (the spec's notion of a save whose two
    writes are both flushed). -/
def Env.faultFree (env : Env) : Prop :=
  env.createPayloadFails = false ∧ env.copyFails = false ∧
    env.createMetaFails = false ∧ env.putTitleFails = false

instance : DecidablePred Env.faultFree := fun env => by
  unfold Env.faultFree; infer_instance

/-- Storage-write events performed by `saveVideo`, in order. -/
inductive Ev where
  /-- `os.Create(videoDirectory + "/video.mp4")` succeeded (payload file
      created/truncated) -/
  | createPayload (id : String)
  /-- `io.Copy` into the payload file completed -/
  | copyPayload (id : String)
  /-- `os.Create(videoDirectory + "/videodata.txt")` succeeded (metadata
      file created/truncated) -/
  | createMeta (id : String)
  /-- `WriteString(video.Title)` into the metadata file completed -/
  | putTitle (id : String)
deriving Repr, DecidableEq

/-- lutube.go `loadVideo`: reads "videos/" + id + "/videodata.txt"; a
    missing metadata file makes `ReadFile` fail and the error is
    returned; otherwise the file content becomes the title verbatim. -/
def loadVideo (fs : FS) (id : String) : Except StoreErr Video :=
  match getEntry id fs.meta with
  | none => .error .notFound
  | some title => .ok { Id := id, Title := title }

/-- lutube.go `saveVideo`, embedded step by step.  Returns the Go error
    value (`none` = nil), the resulting filesystem state and the list of
    storage-write events in order.

    Control flow mirrors the source exactly:
    * `os.Create` of "video.mp4" fails when the slot directory does not
      exist (ENOENT) or on an environmental fault; then `err` is
      returned and nothing was written.
    * on success the payload file is truncated; `io.Copy` then either
      copies `videoFile` fully or fails after a partial transfer — and
      on failure the source returns the shadowed `err`, which is nil,
      so the call reports success.
    * `os.Create` of "videodata.txt" on fault likewise returns the
      shadowed nil `err`.
    * a successful create truncates the metadata file; `WriteString`
      either writes the title fully or fails after a partial write, and
      its error `err3` is returned. -/
def saveVideo (fs : FS) (video : Video) (videoFile : Bytes) (env : Env) :
    Option StoreErr × FS × List Ev :=
  if video.Id ∈ fs.dirs then
    if env.createPayloadFails then
      (some .createFailed, fs, [])
    else
      let fs1 : FS := { fs with payload := setEntry video.Id [] fs.payload }
      if env.copyFails then
        let part : Bytes := videoFile.take env.copyPartLen
        let fs2 : FS := { fs1 with payload := setEntry video.Id part fs1.payload }
        (none, fs2, [.createPayload video.Id])
      else
        let fs2 : FS :=
          { fs1 with payload := setEntry video.Id videoFile fs1.payload }
        if env.createMetaFails then
          (none, fs2, [.createPayload video.Id, .copyPayload video.Id])
        else
          let fs3 : FS := { fs2 with meta := setEntry video.Id "" fs2.meta }
          if env.putTitleFails then
            let part : String := video.Title.take env.putTitlePartLen
            let fs4 : FS := { fs3 with meta := setEntry video.Id part fs3.meta }
            (some .putTitleFailed, fs4,
              [.createPayload video.Id, .copyPayload video.Id,
                .createMeta video.Id])
          else
            let fs4 : FS :=
              { fs3 with meta := setEntry video.Id video.Title fs3.meta }
            (none, fs4,
              [.createPayload video.Id, .copyPayload video.Id,
                .createMeta video.Id, .putTitle video.Id])
  else
    (some .notFound, fs, [])

/-- lutube.go `getAvailableVideos`: `ReadDir("videos")` lists the slot
    directories (failure aborts with the error); for each directory the
    result of `loadVideo` is appended with its error discarded, so a
    slot whose metadata load fails contributes the nil `*Video`
    (modelled as `none`). -/
def getAvailableVideos (fs : FS) (listFails : Bool) :
    Except StoreErr (List (Option Video)) :=
  if listFails then
    .error .listFailed
  else
    .ok (fs.dirs.map fun id =>
      match loadVideo fs id with
      | .error _ => none
      | .ok v => some v)

/-- One `ioutil.TempDir("videos/", "")` call in `uploadHandler`, at the
    linearization point of its atomic exclusive directory creation:
    given the candidate name the OS draws, the creation succeeds exactly
    when no directory of that name exists, in which case the new empty
    slot is added and its name becomes the id; a clash makes `TempDir`
    retry with a fresh candidate (modelled by `none`). -/
def allocate (fs : FS) (cand : String) : Option (FS × String) :=
  if cand ∈ fs.dirs then none
  else some ({ fs with dirs := cand :: fs.dirs }, cand)

/-- A batch of `allocate` attempts with the given candidate names, in
    linearization order; clashing candidates are retried by `TempDir`
    and mint no id.  Returns the final state and the ids minted. -/
def allocRun (fs : FS) : List String → FS × List String
  | [] => (fs, [])
  | c :: cs =>
    match allocate fs c with
    | none => allocRun fs cs
    | some (fs', id) =>
      let r := allocRun fs' cs
      (r.1, id :: r.2)

/-! ## Basic lemmas about the embedding -/

/-- Looking up a different slot sees through an update. -/
theorem getEntry_setEntry_ne {α : Type} {k k' : String} (v : α)
    (l : List (String × α)) (h : k ≠ k') :
    getEntry k' (setEntry k v l) = getEntry k' l := by
  simp [getEntry, setEntry, h]

/-- Looking up the updated slot sees the new content. -/
theorem getEntry_setEntry_self {α : Type} (k : String) (v : α)
    (l : List (String × α)) :
    getEntry k (setEntry k v l) = some v := by
  simp [getEntry, setEntry]

/-- A successful lookup comes from an entry of the list. -/
theorem getEntry_eq_some_mem {α : Type} {k : String} {v : α}
    {l : List (String × α)} (h : getEntry k l = some v) : (k, v) ∈ l := by
  induction l with
  | nil => simp [getEntry] at h
  | cons p rest ih =>
    obtain ⟨k', v'⟩ := p
    by_cases hk : k' = k
    · subst hk
      simp [getEntry] at h
      simp [h]
    · simp [getEntry, hk] at h
      exact List.mem_cons_of_mem _ (ih h)

/-- `saveVideo` never creates or removes slot directories. -/
theorem saveVideo_dirs (fs : FS) (video : Video) (videoFile : Bytes)
    (env : Env) : (saveVideo fs video videoFile env).2.1.dirs = fs.dirs := by
  unfold saveVideo
  repeat' split
  all_goals rfl

/-! ## Claim C1 -/

/-- C1: the claim says that if either the payload write or the metadata
    write performed by save fails, save returns a WriteFailed error and
    never success.  The code violates this: `saveVideo` returns the
    shadowed nil `err` instead of `err1` when `io.Copy` fails and
    instead of `err2` when `os.Create` of the metadata file fails, so in
    both cases the call reports success (nil error) although a write
    failed.  This theorem evaluates the code at two such failing inputs:
    slot "a" exists and (a) the payload copy fails, (b) the metadata
    create fails; `saveVideo` returns `none` (Go nil, i.e. success). -/
theorem c1_save_reports_success_despite_write_failure :
    (saveVideo ⟨["a"], [], []⟩ ⟨"a", "t"⟩ [1, 2]
      ⟨false, true, 1, false, false, 0⟩).1 = none ∧
    (saveVideo ⟨["a"], [], []⟩ ⟨"a", "t"⟩ [1, 2]
      ⟨false, false, 0, true, false, 0⟩).1 = none := by
  constructor <;> rfl

/-! ## Claim C4 -/

/-- C4: for every id with no metadata record in the store, load fails
    with NotFound; in particular a freshly allocated id (slot created,
    nothing saved) has no metadata record in a well-formed store, so
    loading it fails with NotFound. -/
theorem c4_load_without_metadata_is_notFound :
    (∀ fs id, getEntry id fs.meta = none →
      loadVideo fs id = .error .notFound) ∧
    (∀ fs cand fs' id, fs.wf → allocate fs cand = some (fs', id) →
      loadVideo fs' id = .error .notFound) := by
  constructor
  · intro fs id h
    simp [loadVideo, h]
  · intro fs cand fs' id hwf halloc
    unfold allocate at halloc
    by_cases hc : cand ∈ fs.dirs
    · simp [hc] at halloc
    · simp [hc] at halloc
      have hnone : getEntry cand fs.meta = none := by
        cases hge : getEntry cand fs.meta with
        | none => rfl
        | some v => exact absurd (hwf.1 _ (getEntry_eq_some_mem hge)) hc
      obtain ⟨hfs, hid⟩ := halloc
      subst hid
      simp [loadVideo, ← hfs, hnone]

/-- Witness for C4 at concrete inputs: loading "b" from a store whose
    only slot is "a" (no metadata anywhere), and loading the id just
    minted by an allocation on that store. -/
theorem c4_witness :
    loadVideo ⟨["a"], [], []⟩ "b" = .error .notFound ∧
    loadVideo ⟨["c", "a"], [], []⟩ "c" = .error .notFound :=
  ⟨c4_load_without_metadata_is_notFound.1 ⟨["a"], [], []⟩ "b" rfl,
    c4_load_without_metadata_is_notFound.2 ⟨["a"], [], []⟩ "c"
      ⟨["c", "a"], [], []⟩ "c" (by constructor <;> simp) (by decide)⟩

/-! ## Claim C10 -/

/-- C10: when the slot directory for the id does not exist, `os.Create`
    of the payload file fails with a not-exist error which `saveVideo`
    returns, and neither a payload blob nor a metadata record is
    written: the store state is returned unchanged and no write event
    happens. -/
theorem c10_save_missing_slot_fails_and_changes_nothing
    (fs : FS) (video : Video) (videoFile : Bytes) (env : Env)
    (h : video.Id ∉ fs.dirs) :
    (saveVideo fs video videoFile env).1 = some .notFound ∧
    (saveVideo fs video videoFile env).2.1 = fs ∧
    (saveVideo fs video videoFile env).2.2 = [] := by
  simp [saveVideo, h]

/-- Witness for C10: saving into the nonexistent slot "b" of a store
    whose only slot is "a". -/
theorem c10_witness :
    ("b" : String) ∉ (FS.mk ["a"] [] []).dirs ∧
    ((saveVideo ⟨["a"], [], []⟩ ⟨"b", "t"⟩ [7]
        ⟨false, false, 0, false, false, 0⟩).1 = some .notFound ∧
      (saveVideo ⟨["a"], [], []⟩ ⟨"b", "t"⟩ [7]
        ⟨false, false, 0, false, false, 0⟩).2.1 = ⟨["a"], [], []⟩ ∧
      (saveVideo ⟨["a"], [], []⟩ ⟨"b", "t"⟩ [7]
        ⟨false, false, 0, false, false, 0⟩).2.2 = []) :=
  ⟨by decide, c10_save_missing_slot_fails_and_changes_nothing
    ⟨["a"], [], []⟩ ⟨"b", "t"⟩ [7] ⟨false, false, 0, false, false, 0⟩
    (by decide)⟩

/-! ## Claim C7 -/

/-- C7: enumeration fails exactly when listing the store root fails
    (and then with the listing error); per-slot metadata failures never
    make `getAvailableVideos` return an error, whatever the store
    contains. -/
theorem c7_enumeration_fails_iff_listing_fails (fs : FS)
    (listFails : Bool) :
    ((∃ e, getAvailableVideos fs listFails = .error e) ↔
      listFails = true) ∧
    getAvailableVideos fs true = .error .listFailed := by
  refine ⟨⟨?_, ?_⟩, rfl⟩
  · rintro ⟨e, he⟩
    by_contra hb
    have hb' : listFails = false := by
      cases listFails
      · rfl
      · exact absurd rfl hb
    rw [hb'] at he
    simp [getAvailableVideos] at he
  · intro hb
    subst hb
    exact ⟨.listFailed, rfl⟩

/-- Witness for C7: on a store with an unreadable slot, enumeration
    with a failing root listing returns an error. -/
theorem c7_witness :
    ∃ e, getAvailableVideos ⟨["a"], [], []⟩ true = .error e :=
  (c7_enumeration_fails_iff_listing_fails ⟨["a"], [], []⟩ true).1.mpr rfl

/-! ## Claim C8 -/

/-- C8: a save touches only its own slot: for any other id, the
    metadata record and the payload blob are exactly what they were
    before the save, whatever the outcome of the save. -/
theorem c8_save_frame (fs : FS) (video : Video) (videoFile : Bytes)
    (env : Env) (id2 : String) (h : id2 ≠ video.Id) :
    getEntry id2 (saveVideo fs video videoFile env).2.1.meta =
      getEntry id2 fs.meta ∧
    getEntry id2 (saveVideo fs video videoFile env).2.1.payload =
      getEntry id2 fs.payload := by
  unfold saveVideo
  repeat' split
  all_goals simp [getEntry_setEntry_ne _ _ (Ne.symm h)]

/-- Witness for C8: a fault-free save into slot "a" leaves slot "b"'s
    metadata and payload untouched. -/
theorem c8_witness :
    ("b" : String) ≠ "a" ∧
    (getEntry "b" (saveVideo ⟨["a", "b"], [("b", "x")], [("b", [9])]⟩
        ⟨"a", "t"⟩ [1] ⟨false, false, 0, false, false, 0⟩).2.1.meta =
      getEntry "b" [("b", "x")] ∧
    getEntry "b" (saveVideo ⟨["a", "b"], [("b", "x")], [("b", [9])]⟩
        ⟨"a", "t"⟩ [1] ⟨false, false, 0, false, false, 0⟩).2.1.payload =
      getEntry "b" [("b", [9])]) :=
  ⟨by decide, c8_save_frame ⟨["a", "b"], [("b", "x")], [("b", [9])]⟩
    ⟨"a", "t"⟩ [1] ⟨false, false, 0, false, false, 0⟩ "b" (by decide)⟩

/-! ## Claim C3 -/

/-- C3: a successful save — per the spec, a save call in which both the
    payload write and the metadata write are flushed, i.e. a run whose
    underlying storage operations all succeed — reports success, and a
    subsequent load of the same id returns exactly the saved title
    (the metadata blob holds the title verbatim).  Note that a save
    call *reporting* success is weaker than this hypothesis: by the C1
    defect a run whose copy fails also reports success, and then the
    metadata may not hold the new title. -/
theorem c3_save_load_roundtrip (fs : FS) (id title : String)
    (videoFile : Bytes) (env : Env) (hdir : id ∈ fs.dirs)
    (hff : env.faultFree) :
    (saveVideo fs ⟨id, title⟩ videoFile env).1 = none ∧
    loadVideo (saveVideo fs ⟨id, title⟩ videoFile env).2.1 id =
      .ok ⟨id, title⟩ := by
  obtain ⟨h1, h2, h3, h4⟩ := hff
  simp [saveVideo, hdir, h1, h2, h3, h4, loadVideo, getEntry_setEntry_self]

/-- Witness for C3: a fault-free save of ("a", "My Trip") into the
    allocated slot "a", then a load of "a". -/
theorem c3_witness :
    (("a" : String) ∈ (FS.mk ["a"] [] []).dirs ∧
      Env.faultFree ⟨false, false, 0, false, false, 0⟩) ∧
    ((saveVideo ⟨["a"], [], []⟩ ⟨"a", "My Trip"⟩ [1, 2, 3]
        ⟨false, false, 0, false, false, 0⟩).1 = none ∧
      loadVideo (saveVideo ⟨["a"], [], []⟩ ⟨"a", "My Trip"⟩ [1, 2, 3]
        ⟨false, false, 0, false, false, 0⟩).2.1 "a" =
        .ok ⟨"a", "My Trip"⟩) :=
  ⟨⟨by decide, ⟨rfl, rfl, rfl, rfl⟩⟩,
    c3_save_load_roundtrip ⟨["a"], [], []⟩ "a" "My Trip" [1, 2, 3]
      ⟨false, false, 0, false, false, 0⟩ (by decide) ⟨rfl, rfl, rfl, rfl⟩⟩

/-! ## Claim C5 -/

/-- C5: `saveVideo` writes the payload before any metadata: the title is
    written only in runs whose event trace is exactly payload-create,
    payload-copy, metadata-create, title-write in that order; and when
    the payload write fails (slot missing, payload create fault, or
    copy fault) the call returns having performed no metadata event,
    with the metadata state of the store exactly as before. -/
theorem c5_payload_written_before_metadata (fs : FS) (video : Video)
    (videoFile : Bytes) (env : Env) :
    (Ev.putTitle video.Id ∈ (saveVideo fs video videoFile env).2.2 →
      (saveVideo fs video videoFile env).2.2 =
        [.createPayload video.Id, .copyPayload video.Id,
          .createMeta video.Id, .putTitle video.Id]) ∧
    ((video.Id ∉ fs.dirs ∨ env.createPayloadFails = true ∨
        env.copyFails = true) →
      (saveVideo fs video videoFile env).2.1.meta = fs.meta ∧
      Ev.createMeta video.Id ∉ (saveVideo fs video videoFile env).2.2 ∧
      Ev.putTitle video.Id ∉ (saveVideo fs video videoFile env).2.2) := by
  unfold saveVideo
  repeat' split
  all_goals refine ⟨fun hmem => ?_, fun hfail => ?_⟩
  all_goals simp_all

/-- Witness for C5: in a fault-free save into slot "a" the title write
    happens and the trace is the full ordered one; in a save whose
    payload copy fails, the metadata file of the store (holding "old")
    is untouched and no metadata event happens. -/
theorem c5_witness :
    (saveVideo ⟨["a"], [("a", "old")], []⟩ ⟨"a", "t"⟩ [1]
      ⟨false, false, 0, false, false, 0⟩).2.2 =
      [.createPayload "a", .copyPayload "a", .createMeta "a",
        .putTitle "a"] ∧
    ((saveVideo ⟨["a"], [("a", "old")], []⟩ ⟨"a", "t"⟩ [1]
        ⟨false, true, 0, false, false, 0⟩).2.1.meta = [("a", "old")] ∧
      Ev.createMeta "a" ∉ (saveVideo ⟨["a"], [("a", "old")], []⟩
        ⟨"a", "t"⟩ [1] ⟨false, true, 0, false, false, 0⟩).2.2 ∧
      Ev.putTitle "a" ∉ (saveVideo ⟨["a"], [("a", "old")], []⟩
        ⟨"a", "t"⟩ [1] ⟨false, true, 0, false, false, 0⟩).2.2) :=
  ⟨(c5_payload_written_before_metadata ⟨["a"], [("a", "old")], []⟩
      ⟨"a", "t"⟩ [1] ⟨false, false, 0, false, false, 0⟩).1 (by decide),
    (c5_payload_written_before_metadata ⟨["a"], [("a", "old")], []⟩
      ⟨"a", "t"⟩ [1] ⟨false, true, 0, false, false, 0⟩).2
      (Or.inr (Or.inr rfl))⟩

/-! ## Claim C6 -/

/-- C6: last-write-wins: after a save of (id, t1, p1) with any outcome,
    a successful (fault-free) save of (id, t2, p2) reports success and
    leaves the slot holding exactly the latest data: load returns t2
    and the payload blob is p2. -/
theorem c6_last_write_wins (fs : FS) (id t1 t2 : String) (p1 p2 : Bytes)
    (env1 env2 : Env) (hdir : id ∈ fs.dirs) (hff : env2.faultFree) :
    (saveVideo (saveVideo fs ⟨id, t1⟩ p1 env1).2.1 ⟨id, t2⟩ p2
      env2).1 = none ∧
    loadVideo (saveVideo (saveVideo fs ⟨id, t1⟩ p1 env1).2.1 ⟨id, t2⟩ p2
      env2).2.1 id = .ok ⟨id, t2⟩ ∧
    getEntry id (saveVideo (saveVideo fs ⟨id, t1⟩ p1 env1).2.1 ⟨id, t2⟩
      p2 env2).2.1.payload = some p2 := by
  obtain ⟨h1, h2, h3, h4⟩ := hff
  have hdir1 : id ∈ (saveVideo fs ⟨id, t1⟩ p1 env1).2.1.dirs := by
    rw [saveVideo_dirs]
    exact hdir
  revert hdir1
  generalize (saveVideo fs ⟨id, t1⟩ p1 env1).2.1 = fs1
  intro hdir1
  simp [saveVideo, hdir1, h1, h2, h3, h4, loadVideo, getEntry_setEntry_self]

/-- Witness for C6: fault-free saves of ("a", "t1", [1]) then
    ("a", "t2", [2]) into slot "a"; the second save succeeds, load
    returns "t2" and the payload blob is [2]. -/
theorem c6_witness :
    (saveVideo (saveVideo ⟨["a"], [], []⟩ ⟨"a", "t1"⟩ [1]
      ⟨false, false, 0, false, false, 0⟩).2.1 ⟨"a", "t2"⟩ [2]
      ⟨false, false, 0, false, false, 0⟩).1 = none ∧
    loadVideo (saveVideo (saveVideo ⟨["a"], [], []⟩ ⟨"a", "t1"⟩ [1]
      ⟨false, false, 0, false, false, 0⟩).2.1 ⟨"a", "t2"⟩ [2]
      ⟨false, false, 0, false, false, 0⟩).2.1 "a" = .ok ⟨"a", "t2"⟩ ∧
    getEntry "a" (saveVideo (saveVideo ⟨["a"], [], []⟩ ⟨"a", "t1"⟩ [1]
      ⟨false, false, 0, false, false, 0⟩).2.1 ⟨"a", "t2"⟩ [2]
      ⟨false, false, 0, false, false, 0⟩).2.1.payload = some [2] :=
  c6_last_write_wins ⟨["a"], [], []⟩ "a" "t1" "t2" [1] [2]
    ⟨false, false, 0, false, false, 0⟩ ⟨false, false, 0, false, false, 0⟩
    (by decide) ⟨rfl, rfl, rfl, rfl⟩

/-! ## Claim C2 -/

/-- C2 counterexample: the claim says a slot whose metadata load fails
    contributes no entry to the enumeration.  On a store whose single
    slot "a" has no readable metadata, `getAvailableVideos` returns a
    one-entry catalog containing the nil video (the source appends the
    nil `*Video` returned by the failed `loadVideo`), not the empty
    catalog the claim requires. -/
theorem c2_counterexample :
    getAvailableVideos ⟨["a"], [], []⟩ false = .ok [none] ∧
    getAvailableVideos ⟨["a"], [], []⟩ false ≠ .ok [] := by
  refine ⟨rfl, fun h => ?_⟩
  rw [show getAvailableVideos ⟨["a"], [], []⟩ false = .ok [none] from rfl]
    at h
  injection h with h2
  exact List.cons_ne_nil none [] h2

/-- C2 amended: enumeration with a readable store root never aborts and
    returns one entry per slot directory: the non-nil entries (id,
    title) are exactly the ids with a readable metadata record at that
    time, each paired with its stored title, while a slot whose
    metadata load fails contributes a nil entry (rather than no entry),
    and a nil entry occurs exactly when some slot's metadata is
    unreadable. -/
theorem c2_enumeration_entries (fs : FS) :
    ∃ l, getAvailableVideos fs false = .ok l ∧
      l.length = fs.dirs.length ∧
      (∀ id title, some (Video.mk id title) ∈ l ↔
        id ∈ fs.dirs ∧ getEntry id fs.meta = some title) ∧
      (none ∈ l ↔ ∃ id ∈ fs.dirs, getEntry id fs.meta = none) := by
  refine ⟨_, rfl, by simp [getAvailableVideos], ?_, ?_⟩
  · intro id title
    constructor
    · intro hmem
      simp only [getAvailableVideos, if_neg Bool.false_ne_true,
        List.mem_map] at hmem
      obtain ⟨a, ha, hfa⟩ := hmem
      cases hge : getEntry a fs.meta with
      | none => simp [loadVideo, hge] at hfa
      | some t =>
        simp [loadVideo, hge] at hfa
        obtain ⟨haid, htt⟩ := hfa
        subst haid
        subst htt
        exact ⟨ha, hge⟩
    · rintro ⟨hid, hge⟩
      simp only [getAvailableVideos, if_neg Bool.false_ne_true,
        List.mem_map]
      exact ⟨id, hid, by simp [loadVideo, hge]⟩
  · simp only [getAvailableVideos, if_neg Bool.false_ne_true,
      List.mem_map]
    constructor
    · rintro ⟨a, ha, hfa⟩
      cases hge : getEntry a fs.meta with
      | none => exact ⟨a, ha, hge⟩
      | some t => simp [loadVideo, hge] at hfa
    · rintro ⟨a, ha, hge⟩
      exact ⟨a, ha, by simp [loadVideo, hge]⟩

/-- Witness for C2 (amended) on a store with slots "a" (metadata
    unreadable) and "b" (title "x"): the catalog contains the video
    ("b", "x") and a nil entry for "a". -/
theorem c2_witness :
    ∃ l, getAvailableVideos ⟨["a", "b"], [("b", "x")], []⟩ false =
        .ok l ∧
      some (Video.mk "b" "x") ∈ l ∧ none ∈ l := by
  obtain ⟨l, hok, hlen, hmem, hnone⟩ :=
    c2_enumeration_entries ⟨["a", "b"], [("b", "x")], []⟩
  exact ⟨l, hok, (hmem "b" "x").mpr ⟨by decide, by decide⟩,
    hnone.mpr ⟨"a", by decide, by decide⟩⟩

/-! ## Claim C9 -/

/-- Directories only accumulate over a batch of allocations. -/
theorem allocRun_dirs_mono (fs : FS) (cands : List String) :
    ∀ d ∈ fs.dirs, d ∈ (allocRun fs cands).1.dirs := by
  induction cands generalizing fs with
  | nil => intro d hd; exact hd
  | cons c cs ih =>
    intro d hd
    by_cases hc : c ∈ fs.dirs
    · simp only [allocRun, allocate, if_pos hc]
      exact ih fs d hd
    · simp only [allocRun, allocate, if_neg hc]
      exact ih _ d (List.mem_cons_of_mem _ hd)

/-- Every id minted by a batch of allocations was not a directory of
    the starting state, and is a directory of the final state. -/
theorem allocRun_ids_spec (fs : FS) (cands : List String) :
    ∀ id ∈ (allocRun fs cands).2,
      id ∉ fs.dirs ∧ id ∈ (allocRun fs cands).1.dirs := by
  induction cands generalizing fs with
  | nil => intro id hid; simp [allocRun] at hid
  | cons c cs ih =>
    intro id hid
    by_cases hc : c ∈ fs.dirs
    · simp only [allocRun, allocate, if_pos hc] at hid ⊢
      exact ih fs id hid
    · simp only [allocRun, allocate, if_neg hc] at hid ⊢
      rcases List.mem_cons.mp hid with hid | hid
      · subst hid
        exact ⟨hc, allocRun_dirs_mono _ cs id (List.mem_cons_self _ _)⟩
      · obtain ⟨hnot, hfin⟩ := ih _ id hid
        exact ⟨fun hmem => hnot (List.mem_cons_of_mem _ hmem), hfin⟩

/-- The ids minted by a batch of allocations are pairwise distinct. -/
theorem allocRun_ids_nodup (fs : FS) (cands : List String) :
    (allocRun fs cands).2.Nodup := by
  induction cands generalizing fs with
  | nil => simp [allocRun]
  | cons c cs ih =>
    by_cases hc : c ∈ fs.dirs
    · simp only [allocRun, allocate, if_pos hc]
      exact ih fs
    · simp only [allocRun, allocate, if_neg hc]
      refine List.nodup_cons.mpr ⟨fun hmem => ?_, ih _⟩
      exact (allocRun_ids_spec _ cs c hmem).1 (List.mem_cons_self _ _)

/-- C9: a batch of allocations — concurrent `TempDir` calls linearized
    at their atomic exclusive directory creations — mints pairwise
    distinct ids, each different from every id already existing in the
    store. -/
theorem c9_allocated_ids_distinct (fs : FS) (cands : List String) :
    (allocRun fs cands).2.Nodup ∧
    ∀ id ∈ (allocRun fs cands).2, id ∉ fs.dirs :=
  ⟨allocRun_ids_nodup fs cands,
    fun id h => (allocRun_ids_spec fs cands id h).1⟩

/-- Witness for C9: three allocation attempts on a store already
    holding slot "a", with a candidate clash on "b": the minted ids are
    distinct and "b" is not a pre-existing id. -/
theorem c9_witness :
    (allocRun ⟨["a"], [], []⟩ ["b", "b", "c"]).2.Nodup ∧
    ("b" : String) ∉ (FS.mk ["a"] [] []).dirs :=
  ⟨(c9_allocated_ids_distinct ⟨["a"], [], []⟩ ["b", "b", "c"]).1,
    (c9_allocated_ids_distinct ⟨["a"], [], []⟩ ["b", "b", "c"]).2 "b"
      (by decide)⟩
